import Mathlib

/-!
Verification of the location resolution and enrichment pipeline of the
mcp-servers repository: a shallow embedding of the Overpass geodata
adapter, the Wikipedia/Wikidata enrichment adapters, the Firestore-backed
resolution orchestrator and the cities-server variant, together with
theorems settling the specification claims about them.

External effects (the Firestore store, the network adapters, the wall
clock) are modelled as explicit oracle parameters, and every operation
additionally returns a log of the external calls and writes it performed,
so that claims about which collaborators are (not) invoked are statable.
JavaScript value semantics (truthiness of absent values, empty strings,
zero and NaN; the conditional-spread idiom) are modelled explicitly.
-/

namespace MCP

/-- JavaScript truthiness of a possibly-absent string value:
an absent value and the empty string are falsy. -/
def jsTruthyS : Option String → Bool
  | none => false
  | some s => s != ""

/-- A JavaScript number that may be NaN. -/
inductive JNum where
  | nan : JNum
  | val (q : ℚ) : JNum
deriving DecidableEq

/-- JS truthiness of a possibly-absent number: absent, NaN and 0 are falsy. -/
def jsTruthyN : Option JNum → Bool
  | some (.val q) => q != 0
  | _ => false

/-- JS truthiness of a possibly-absent plain numeric value
(used for JSON coordinates, where NaN cannot arise). -/
def jsTruthyQ : Option ℚ → Bool
  | some q => q != 0
  | none => false

/-- JS string disjunction: the value of the expression a or-else b. -/
def jsOrS (a b : Option String) : Option String := if jsTruthyS a then a else b

/-- Models the conditional-spread idiom that includes a field only when its
value is truthy: a falsy value leaves the field absent. -/
def keepTruthyS (v : Option String) : Option String := if jsTruthyS v then v else none

/-- Numeric variant of the conditional-spread idiom. -/
def keepTruthyN (v : Option JNum) : Option JNum := if jsTruthyN v then v else none

/-- Longest leading decimal-digit prefix of a character list, as a number;
none when there is no leading digit. -/
def digitsPrefix : List Char → Option Nat → Option Nat
  | c :: rest, acc =>
      if c.isDigit then digitsPrefix rest (some ((acc.getD 0) * 10 + (c.toNat - 48)))
      else acc
  | [], acc => acc

/-- JavaScript parseInt with radix 10: skip leading whitespace, allow an
optional sign, then read the longest digit prefix; no digits yields NaN. -/
def jsParseInt (s : String) : JNum :=
  let l := s.data.dropWhile (fun c => c == ' ' || c == '\t' || c == '\n' || c == '\r')
  match l with
  | '-' :: rest =>
      match digitsPrefix rest none with
      | some n => .val (-(n : ℚ))
      | none => .nan
  | '+' :: rest =>
      match digitsPrefix rest none with
      | some n => .val (n : ℚ)
      | none => .nan
  | _ =>
      match digitsPrefix l none with
      | some n => .val (n : ℚ)
      | none => .nan

/-- An OSM tag object: a finite string-to-string mapping. -/
abbrev Tags := List (String × String)

/-- JS property access on a tag object. -/
def Tags.get (t : Tags) (k : String) : Option String :=
  (t.find? (fun p => p.1 == k)).map (fun p => p.2)

/-! ## OverpassService.determineType (both server variants have the identical body) -/

/-- Translation of OverpassService.determineType: first match wins, in source
order place, natural, tourism, historic, amenity. -/
def determineType (tags : Tags) : String :=
  if jsTruthyS (tags.get "place") then (tags.get "place").getD "" else
  if tags.get "natural" == some "mountain_range" then "mountain_range" else
  if tags.get "natural" == some "peak" then "peak" else
  if tags.get "natural" == some "cave_entrance" || tags.get "natural" == some "cave" then "cave" else
  if tags.get "natural" == some "waterfall" then "waterfall" else
  if tags.get "tourism" == some "alpine_hut" then "alpine_hut" else
  if tags.get "tourism" == some "viewpoint" then "viewpoint" else
  if tags.get "tourism" == some "museum" then "museum" else
  if tags.get "tourism" == some "attraction" then "attraction" else
  if jsTruthyS (tags.get "tourism") then "attraction" else
  if tags.get "historic" == some "castle" then "castle" else
  if tags.get "historic" == some "fort" then "fort" else
  if tags.get "historic" == some "ruins" then "ruins" else
  if tags.get "historic" == some "archaeological_site" then "archaeological_site" else
  if tags.get "historic" == some "monastery" then "monastery" else
  if tags.get "historic" == some "memorial" then "memorial" else
  if tags.get "historic" == some "church" then "church" else
  if jsTruthyS (tags.get "historic") then "historical_site" else
  if tags.get "amenity" == some "place_of_worship" then
    (if tags.get "religion" == some "christian" then "church" else "place_of_worship")
  else "unknown"

/-! ## OverpassService.escapeSearchTerm -/

/-- One global-replace pass over a character class, prefixing a backslash to
every occurrence (each source pass replaces a matched character c by
backslash-c). -/
def escapeClass (cls : List Char) : List Char → List Char
  | [] => []
  | c :: rest =>
      if c ∈ cls then '\\' :: c :: escapeClass cls rest
      else c :: escapeClass cls rest

def backslashClass : List Char := ['\\']

def quoteClass : List Char := ['"']

def bracketClass : List Char := ['[', ']']

def parenClass : List Char := ['(', ')']

def regexClass : List Char := ['.', '*', '+', '?', '^', '$', '\x7b', '\x7d', '|']

/-- Translation of OverpassService.escapeSearchTerm: five sequential
replacement passes, backslashes first, then quotes, square brackets,
parentheses, and the remaining regex metacharacters. -/
def escapeSearchTerm (s : List Char) : List Char :=
  escapeClass regexClass
    (escapeClass parenClass
      (escapeClass bracketClass
        (escapeClass quoteClass
          (escapeClass backslashClass s))))

/-- The union of all five escaped character classes. -/
def overpassSpecials : List Char :=
  ['\\', '"', '[', ']', '(', ')', '.', '*', '+', '?', '^', '$', '\x7b', '\x7d', '|']

/-! ## OverpassService.parseOverpassResults -/

/-- A raw element returned by the Overpass API: JSON fields may be absent. -/
structure OverpassElement where
  id : Nat
  type : String
  lat : Option ℚ
  lon : Option ℚ
  center : Option (ℚ × ℚ)
  tags : Option Tags
deriving DecidableEq

/-- A normalized feature record as produced by parseOverpassResults and
consumed by the resolution pipeline. -/
structure OsmItem where
  osmId : Nat
  osmType : String
  name : Option String
  type : String
  lat : Option ℚ
  lon : Option ℚ
  wikipedia : Option String
  wikidata : Option String
  osmTags : Tags
deriving DecidableEq

/-- The Overpass response body; the elements array may be absent. -/
structure OverpassData where
  elements : Option (List OverpassElement)
deriving DecidableEq

/-- Normalization of one raw element: when the direct latitude is falsy and
a center point is present, both coordinates are taken from the center. -/
def normalizeElement (element : OverpassElement) : OsmItem :=
  let tags := element.tags.getD []
  let latlon : Option ℚ × Option ℚ :=
    match element.center with
    | some c => if jsTruthyQ element.lat then (element.lat, element.lon) else (some c.1, some c.2)
    | none => (element.lat, element.lon)
  { osmId := element.id
    osmType := element.type
    name := tags.get "name"
    type := determineType tags
    lat := latlon.1
    lon := latlon.2
    wikipedia := tags.get "wikipedia"
    wikidata := tags.get "wikidata"
    osmTags := tags }

/-- Translation of OverpassService.parseOverpassResults: map every element
to a normalized record, then keep only records whose name, lat and lon are
all truthy. -/
def parseOverpassResults (data : OverpassData) : List OsmItem :=
  match data.elements with
  | none => []
  | some elements =>
      if elements.length == 0 then []
      else
        (elements.map normalizeElement).filter
          (fun item => jsTruthyS item.name && jsTruthyQ item.lat && jsTruthyQ item.lon)

/-! ## OverpassService.searchByName - progressive fallback (locations server) -/

/-- The queries OverpassService builds. The query text is a function of the
builder used and the search term, so a query is modelled by which builder
produced it. -/
inductive OverpassQuery where
  | general (term : String)
  | typeSpecific (term : String) (category : String) (values : List String)
  | places (term : String)
  | naturalFeatures (term : String)
  | mountains (term : String)
  | peaks (term : String)
  | naturalSites (term : String)
  | cultural (term : String)
deriving DecidableEq

/-- The type-to-OSM-tag mapping of buildTypeSpecificQuery. -/
def typeMapping : List (String × (String × List String)) :=
  [("city", ("place", ["city"])),
   ("town", ("place", ["town"])),
   ("village", ("place", ["village"])),
   ("peak", ("natural", ["peak"])),
   ("mountain_range", ("natural", ["mountain_range"])),
   ("cave", ("natural", ["cave", "cave_entrance"])),
   ("waterfall", ("natural", ["waterfall"])),
   ("castle", ("historic", ["castle"])),
   ("fort", ("historic", ["fort"])),
   ("ruins", ("historic", ["ruins"])),
   ("archaeological_site", ("historic", ["archaeological_site"])),
   ("monastery", ("historic", ["monastery"])),
   ("memorial", ("historic", ["memorial"])),
   ("church", ("historic", ["church"])),
   ("alpine_hut", ("tourism", ["alpine_hut"])),
   ("viewpoint", ("tourism", ["viewpoint"])),
   ("museum", ("tourism", ["museum"])),
   ("attraction", ("tourism", ["attraction"]))]

/-- buildTypeSpecificQuery: a type outside the mapping falls back to the
general query. -/
def buildTypeSpecificQuery (term : String) (locationType : String) : OverpassQuery :=
  match (typeMapping.find? (fun p => p.1 == locationType)).map (fun p => p.2) with
  | none => .general term
  | some (category, values) => .typeSpecific term category values

/-- The network collaborator behind OverpassService.executeQuery: for a
given query, either a thrown error (timeout, HTTP error status,
temporarily-unavailable) or a parsed JSON response body. -/
structure OverpassNet where
  fetch : OverpassQuery → Except String OverpassData

/-- executeQuery: fetch the query and normalize the response. -/
def executeQuery (net : OverpassNet) (q : OverpassQuery) : Except String (List OsmItem) :=
  (net.fetch q).map parseOverpassResults

/-- The final cultural/historic stage of the progressive search: its
result is returned as-is (even when empty); if it throws, the caller gets
a not-found error naming the term. -/
def searchByNameCultural (net : OverpassNet) (searchTerm : String) (log : List OverpassQuery) :
    Except String (List OsmItem) × List OverpassQuery :=
  match executeQuery net (.cultural searchTerm) with
  | .ok culturalResults => (.ok culturalResults, log ++ [.cultural searchTerm])
  | .error _ =>
      (.error ("No results found for \"" ++ searchTerm ++ "\""), log ++ [.cultural searchTerm])

/-- The natural-features stage of the progressive search: nonempty results
are returned; empty results or a thrown error fall through to the
cultural stage. -/
def searchByNameNatural (net : OverpassNet) (searchTerm : String) (log : List OverpassQuery) :
    Except String (List OsmItem) × List OverpassQuery :=
  match executeQuery net (.naturalFeatures searchTerm) with
  | .ok naturalResults =>
      if naturalResults.length > 0 then (.ok naturalResults, log ++ [.naturalFeatures searchTerm])
      else searchByNameCultural net searchTerm (log ++ [.naturalFeatures searchTerm])
  | .error _ => searchByNameCultural net searchTerm (log ++ [.naturalFeatures searchTerm])

/-- Translation of the locations-server OverpassService.searchByName: a
type-specific query when a type is given, otherwise the progressive
places, natural-features, cultural fallback. Also returns the list of
queries issued, in order. -/
def searchByNameOP (net : OverpassNet) (searchTerm : String) (locationType : Option String) :
    Except String (List OsmItem) × List OverpassQuery :=
  if jsTruthyS locationType then
    let q := buildTypeSpecificQuery searchTerm (locationType.getD "")
    (executeQuery net q, [q])
  else
    match executeQuery net (.places searchTerm) with
    | .ok placesResults =>
        if placesResults.length > 0 then (.ok placesResults, [.places searchTerm])
        else searchByNameNatural net searchTerm [.places searchTerm]
    | .error _ => searchByNameNatural net searchTerm [.places searchTerm]

/-! ## WikidataService.getInfo - retry policy -/

/-- The transient network error codes that WikidataService classifies. -/
inductive NetCode where
  | etimedout
  | econnreset
  | enotfound
deriving DecidableEq

/-- WikidataService.getNetworkErrorMessage (the default switch case is
unreachable from getInfo, which only classifies these three codes). -/
def getNetworkErrorMessage : NetCode → String
  | .etimedout => "Wikidata server connection timeout. This may be due to network connectivity issues, firewall restrictions, or VPN blocking. Please check your network connection and try again later."
  | .econnreset => "Wikidata server connection was reset. This may indicate network instability or server-side issues. Please try again later."
  | .enotfound => "Wikidata server could not be reached (DNS resolution failed). Please check your internet connection and DNS settings."

/-- The structured facts WikidataService.getInfo extracts from an entity. -/
structure WikidataInfo where
  label : Option String
  description : Option String
  population : Option JNum
  elevation : Option JNum
  area : Option JNum
  images : List String
  coordinates : Option (ℚ × ℚ)
  officialWebsite : Option String
deriving DecidableEq

/-- The outcome of one outbound Wikidata call as observed by getInfo: a 2xx
response carrying a parsed entity (or none when the entity is missing), a
non-2xx status, an aborted request (timeout), a transient network error,
or any other thrown error. -/
inductive WDOutcome where
  | httpOk (entity : Option WikidataInfo)
  | httpStatus (status : Nat)
  | abortTimeout
  | netError (code : NetCode)
  | otherError (msg : String)

deriving instance DecidableEq for Except

/-- What a call to getInfo produced: how many outbound calls were made,
the backoff delays slept between them (in ms), and the returned value or
thrown error. -/
structure WDResult where
  calls : Nat
  delays : List Nat
  result : Except String (Option WikidataInfo)
deriving DecidableEq

def MAX_RETRY_ATTEMPTS : Nat := 3

def INITIAL_RETRY_DELAY : Nat := 1000

/-- The backoff delay slept after a failed attempt. -/
def wdRetryDelay (attempt : Nat) : Nat := INITIAL_RETRY_DELAY * 2 ^ (attempt - 1)

/-- The retry loop of WikidataService.getInfo over the remaining attempt
numbers; the oracle gives the outcome of the n-th outbound call. A 5xx or
429 status retries with backoff and returns null once attempts are
exhausted; any other non-2xx status returns null immediately; a timeout
or transient network error retries with backoff and throws a classified
message once attempts are exhausted; any other error is swallowed and
retried without delay, and thrown only on the last attempt. -/
def getInfoLoop (oracle : Nat → WDOutcome) : List Nat → Nat → List Nat → WDResult
  | [], calls, delays => ⟨calls, delays, .ok none⟩
  | attempt :: rest, calls, delays =>
      match oracle attempt with
      | .httpOk entity => ⟨calls + 1, delays, .ok entity⟩
      | .httpStatus status =>
          if 500 ≤ status || status == 429 then
            if attempt < MAX_RETRY_ATTEMPTS then
              getInfoLoop oracle rest (calls + 1) (delays ++ [wdRetryDelay attempt])
            else ⟨calls + 1, delays, .ok none⟩
          else ⟨calls + 1, delays, .ok none⟩
      | .abortTimeout =>
          if attempt < MAX_RETRY_ATTEMPTS then
            getInfoLoop oracle rest (calls + 1) (delays ++ [wdRetryDelay attempt])
          else
            ⟨calls + 1, delays,
              .error ("Wikidata API timeout after " ++ toString MAX_RETRY_ATTEMPTS ++ " attempts")⟩
      | .netError code =>
          if attempt < MAX_RETRY_ATTEMPTS then
            getInfoLoop oracle rest (calls + 1) (delays ++ [wdRetryDelay attempt])
          else
            ⟨calls + 1, delays,
              .error (getNetworkErrorMessage code ++
                " (after " ++ toString MAX_RETRY_ATTEMPTS ++ " attempts)")⟩
      | .otherError msg =>
          if attempt == MAX_RETRY_ATTEMPTS then ⟨calls + 1, delays, .error msg⟩
          else getInfoLoop oracle rest (calls + 1) delays

/-- JS String.prototype.startsWith, stated on the character lists. -/
def jsStartsWith (s pre : String) : Bool := pre.data.isPrefixOf s.data

/-- Translation of WikidataService.getInfo: guard on the entity-identifier
shape, then up to MAX_RETRY_ATTEMPTS attempts. -/
def wikidataGetInfo (wikidataId : String) (oracle : Nat → WDOutcome) : WDResult :=
  if wikidataId == "" || !(jsStartsWith wikidataId "Q") then ⟨0, [], .ok none⟩
  else getInfoLoop oracle [1, 2, 3] 0 []

/-- A concrete facts record used to exercise the retry loop. -/
def sampleWD : WikidataInfo :=
  { label := some "Sofia"
    description := some "capital"
    population := some (.val 1000000)
    elevation := some (.val 550)
    area := none
    images := []
    coordinates := none
    officialWebsite := none }

/-! ## Shared location constants (location-constants.js) -/

/-- The type-to-collection table LOCATION_TYPE_TO_CATEGORY. -/
def LOCATION_TYPE_TO_CATEGORY : List (String × String) :=
  [("city", "cities"), ("town", "cities"), ("village", "cities"),
   ("mountain_range", "mountains"),
   ("peak", "peaks"),
   ("cave", "natural_sites"), ("waterfall", "natural_sites"),
   ("alpine_hut", "cultural_sites"), ("viewpoint", "cultural_sites"),
   ("museum", "cultural_sites"), ("attraction", "cultural_sites"),
   ("castle", "cultural_sites"), ("fort", "cultural_sites"),
   ("ruins", "cultural_sites"), ("archaeological_site", "cultural_sites"),
   ("monastery", "cultural_sites"), ("memorial", "cultural_sites"),
   ("church", "cultural_sites"), ("historical_site", "cultural_sites")]

def COLLECTIONS_CITIES : String := "cities"

def COLLECTIONS_MOUNTAINS : String := "mountains"

def COLLECTIONS_PEAKS : String := "peaks"

def COLLECTIONS_NATURAL_SITES : String := "natural_sites"

def COLLECTIONS_CULTURAL_SITES : String := "cultural_sites"

/-- The deprecated default collection name. -/
def COLLECTION_NAME : String := "locations"

/-- getCollectionForType: any type outside the table defaults to the
cultural-sites collection. -/
def getCollectionForType (locationType : String) : String :=
  ((LOCATION_TYPE_TO_CATEGORY.find? (fun p => p.1 == locationType)).map (fun p => p.2)).getD
    COLLECTIONS_CULTURAL_SITES

/-! ## Enrichment and merge (locations server index.js and cities server index.js) -/

/-- The summary record WikipediaService.getInfo returns. -/
structure WikipediaInfo where
  title : Option String
  description : Option String
  thumbnail : Option String
  image : Option String
  url : Option String
  lang : String
deriving DecidableEq

/-- JS Array.prototype.filter(Boolean) over possibly-absent strings:
drops absent values and empty strings, preserving order. -/
def filterBoolean (l : List (Option String)) : List String :=
  l.filterMap (fun o =>
    match o with
    | some s => if s != "" then some s else none
    | none => none)

/-- The merged, enriched location record built by enrichLocationData (and,
with unconditional fields, by the cities-server merge step). Fields
produced by a conditional spread are absent when the spread drops them. -/
structure Enriched where
  name : Option String
  type : String
  lat : Option ℚ
  lon : Option ℚ
  osmId : Nat
  osmType : String
  osmTags : Tags
  description : Option String
  wikipediaUrl : Option String
  wikipediaLang : Option String
  population : Option JNum
  elevation : Option JNum
  area : Option JNum
  officialWebsite : Option String
  images : List String
  wikidataId : Option String
  wikipediaTag : Option String
  lastUpdated : String
  source : String
deriving DecidableEq

/-- A document in the persistent store. -/
structure StoredDoc where
  docId : String
  collection : String
  data : Enriched
deriving DecidableEq

/-- The external collaborators of the locations-server orchestrator: the
persistent store, the six feature-search methods of OverpassService, the
two enrichment adapters, the validator (validateLocationData lives in a
module that is not among the embedded sources, so it stays an abstract
dependency), the clock and the id allocator (the id assigned to the n-th
write of a call). -/
structure Env where
  store : List StoredDoc
  searchByName : String → Option String → Except String (List OsmItem)
  searchCities : String → Except String (List OsmItem)
  searchMountains : String → Except String (List OsmItem)
  searchPeaks : String → Except String (List OsmItem)
  searchNaturalSites : String → Except String (List OsmItem)
  searchCulturalSites : String → Except String (List OsmItem)
  wikipedia : String → Except String (Option WikipediaInfo)
  wikidata : String → Except String (Option WikidataInfo)
  validate : Enriched → Bool × List String
  now : String
  newId : Nat → String

/-- A log of the external calls and writes one operation performed. -/
structure Calls where
  overpass : Nat
  wikipedia : Nat
  wikidata : Nat
  validate : Nat
  writes : List (String × Enriched)
deriving DecidableEq

def noCalls : Calls := ⟨0, 0, 0, 0, []⟩

/-- An enrichment call guarded by truthiness of the cross-reference tag
(so the adapter is never invoked with an absent or empty identifier),
with any thrown error caught and treated as no data; also counts the
outbound calls made. -/
def caughtCall {α : Type} (adapter : String → Except String (Option α)) (tag : Option String) :
    Option α × Nat :=
  if jsTruthyS tag then
    match adapter (tag.getD "") with
    | .ok v => (v, 1)
    | .error _ => (none, 1)
  else (none, 0)

/-- The elevation conditional spread of enrichLocationData: included when
either the structured elevation or the raw ele tag is truthy; the value
prefers the structured elevation and otherwise parses the tag (an absent
tag would be coerced to the string undefined, parsing to NaN). -/
def enrichedElevation (wdElevation : Option JNum) (ele : Option String) : Option JNum :=
  if jsTruthyN wdElevation || jsTruthyS ele then
    some (if jsTruthyN wdElevation then wdElevation.getD .nan
          else jsParseInt (ele.getD "undefined"))
  else none

/-- Translation of the locations-server enrichLocationData: each adapter
is called only when the corresponding cross-reference tag on the feature
is truthy; a thrown adapter error is caught at this call site; the merge
uses conditional spreads for the optional fields and the images array is
the adapters' images filtered by truthiness, in narrative-first order. -/
def enrichLocationData (env : Env) (osmData : OsmItem) : Enriched × Calls :=
  let wpPair := caughtCall env.wikipedia osmData.wikipedia
  let wikipediaData := wpPair.1
  let wdPair := caughtCall env.wikidata osmData.wikidata
  let wikidataData := wdPair.1
  let enriched : Enriched :=
    { name := osmData.name
      type := osmData.type
      lat := osmData.lat
      lon := osmData.lon
      osmId := osmData.osmId
      osmType := osmData.osmType
      osmTags := osmData.osmTags
      description := keepTruthyS (jsOrS (wikipediaData.bind (fun w => w.description))
        (wikidataData.bind (fun w => w.description)))
      wikipediaUrl := keepTruthyS (wikipediaData.bind (fun w => w.url))
      wikipediaLang := keepTruthyS (wikipediaData.map (fun w => w.lang))
      population := keepTruthyN (wikidataData.bind (fun w => w.population))
      elevation := enrichedElevation (wikidataData.bind (fun w => w.elevation))
        (osmData.osmTags.get "ele")
      area := keepTruthyN (wikidataData.bind (fun w => w.area))
      officialWebsite := keepTruthyS (wikidataData.bind (fun w => w.officialWebsite))
      images := filterBoolean ((wikipediaData.bind (fun w => w.image)) ::
        (wikipediaData.bind (fun w => w.thumbnail)) ::
        ((wikidataData.map (fun w => w.images)).getD []).map some)
      wikidataId := keepTruthyS osmData.wikidata
      wikipediaTag := keepTruthyS osmData.wikipedia
      lastUpdated := env.now
      source := "osm" }
  (enriched, { noCalls with wikipedia := wpPair.2, wikidata := wdPair.2 })

/-! ## Resolution orchestrator (locations server index.js) -/

/-- JS whitespace characters String.prototype.trim removes (the ones that
can occur in this data). -/
def isJsSpace (c : Char) : Bool := c == ' ' || c == '\t' || c == '\n' || c == '\r'

/-- JS String.prototype.trim. -/
def jsTrim (s : String) : String :=
  ⟨((s.data.dropWhile isJsSpace).reverse.dropWhile isJsSpace).reverse⟩

/-- The record returned to the tool caller: the merged data plus the
store-assigned document id and the collection it lives in. -/
structure SearchResult where
  data : Enriched
  id : String
  collection : String
deriving DecidableEq

/-- The collection searchLocation and searchAllLocations target, from the
requested type (through the router) or the category hint, defaulting to
the deprecated locations collection. -/
def targetCollection (locationType category : Option String) : String :=
  if jsTruthyS locationType then getCollectionForType (locationType.getD "")
  else if jsTruthyS category then category.getD ""
  else COLLECTION_NAME

/-- The cache query of searchLocation and searchAllLocations: exact-name
(and, when a type is given, exact-type) matches in the target collection,
in store order. -/
def cacheMatches (store : List StoredDoc) (collectionName normalizedName : String)
    (locationType : Option String) : List StoredDoc :=
  store.filter (fun d =>
    d.collection == collectionName && d.data.name == some normalizedName &&
      (!jsTruthyS locationType || d.data.type == locationType.getD ""))

/-- The cache-hit annotation: the stored data with source overridden to
cache, plus the document id and the queried collection. -/
def annotateCached (doc : StoredDoc) (collectionName : String) : SearchResult :=
  ⟨{ doc.data with source := "cache" }, doc.docId, collectionName⟩

/-- The category dispatch of step 2 of both search pipelines. -/
def osmQueryFor (env : Env) (normalizedName : String) (locationType category : Option String) :
    Except String (List OsmItem) :=
  if jsTruthyS locationType then env.searchByName normalizedName locationType
  else if category == some COLLECTIONS_CITIES then env.searchCities normalizedName
  else if category == some COLLECTIONS_MOUNTAINS then env.searchMountains normalizedName
  else if category == some COLLECTIONS_PEAKS then env.searchPeaks normalizedName
  else if category == some COLLECTIONS_NATURAL_SITES then env.searchNaturalSites normalizedName
  else if category == some COLLECTIONS_CULTURAL_SITES then env.searchCulturalSites normalizedName
  else env.searchByName normalizedName locationType

/-- Translation of searchLocation (single best match): name guard,
collection choice, cache-first lookup limited to one match, then feature
search, enrichment, validation and a single write to the collection of
the actually-resolved type. -/
def searchLocation (env : Env) (locationName : String) (locationType category : Option String) :
    Except String SearchResult × Calls :=
  if locationName == "" then (.error "Location name is required", noCalls)
  else
    let normalizedName := jsTrim locationName
    let collectionName := targetCollection locationType category
    match (cacheMatches env.store collectionName normalizedName locationType).head? with
    | some doc => (.ok (annotateCached doc collectionName), noCalls)
    | none =>
        match osmQueryFor env normalizedName locationType category with
        | .error e => (.error e, { noCalls with overpass := 1 })
        | .ok [] =>
            (.error ("No results found for \"" ++ normalizedName ++ "\""),
             { noCalls with overpass := 1 })
        | .ok (osmData :: _) =>
            let actualCollection := getCollectionForType osmData.type
            let ec := enrichLocationData env osmData
            let enrichedData := ec.1
            let v := env.validate enrichedData
            if !v.1 then
              (.error ("Invalid location data: " ++ String.intercalate "; " v.2),
               { ec.2 with overpass := 1, validate := 1 })
            else
              (.ok ⟨enrichedData, env.newId 0, actualCollection⟩,
               { ec.2 with
                  overpass := 1
                  validate := 1
                  writes := [(actualCollection, enrichedData)] })

/-- The proximity test of searchAllLocations, the comparison of the
absolute coordinate difference against a thousandth of a degree. It is
computed on the integer representation of the rationals (the subtraction
of the rational library is irreducible); absLtEps_iff proves it equal to
the textbook absolute-difference comparison. A JS subtraction with an
absent operand yields NaN, whose comparisons are all false. -/
def absLtEps (a b : Option ℚ) : Bool :=
  match a, b with
  | some x, some y =>
      decide (1000 * (x.num * (y.den : Int) - y.num * (x.den : Int)).natAbs < x.den * y.den)
  | _, _ => false

/-- Whether an already-accepted result and a raw feature are within the
proximity threshold on both axes. -/
def isDupOf (r : SearchResult) (osmData : OsmItem) : Bool :=
  absLtEps r.data.lat osmData.lat && absLtEps r.data.lon osmData.lon

/-- The batch loop of searchAllLocations: a feature within the proximity
threshold of an already-accepted result is skipped (neither enriched nor
persisted); otherwise it is enriched, validated (a per-item failure skips
just that item) and written. -/
def processAllResults (env : Env) : List OsmItem → List SearchResult → Calls →
    List SearchResult × Calls
  | [], results, calls => (results, calls)
  | osmData :: rest, results, calls =>
      if results.any (fun r => isDupOf r osmData) then
        processAllResults env rest results calls
      else
        let ec := enrichLocationData env osmData
        let enrichedData := ec.1
        let calls1 : Calls :=
          { calls with
             wikipedia := calls.wikipedia + ec.2.wikipedia
             wikidata := calls.wikidata + ec.2.wikidata
             validate := calls.validate + 1 }
        let v := env.validate enrichedData
        if !v.1 then processAllResults env rest results calls1
        else
          let actualCollection := getCollectionForType osmData.type
          let docRefId := env.newId calls1.writes.length
          processAllResults env rest
            (results ++ [⟨enrichedData, docRefId, actualCollection⟩])
            { calls1 with writes := calls1.writes ++ [(actualCollection, enrichedData)] }

/-- Translation of searchAllLocations (all matches): the cache query has
no limit and any cache hit returns all cached matches, short-circuiting
the external phase entirely; on a cache miss every feature-search result
runs through the dedup-enrich-validate-persist loop. -/
def searchAllLocations (env : Env) (locationName : String)
    (locationType category : Option String) :
    Except String (List SearchResult) × Calls :=
  if locationName == "" then (.error "Location name is required", noCalls)
  else
    let normalizedName := jsTrim locationName
    let collectionName := targetCollection locationType category
    let cached := cacheMatches env.store collectionName normalizedName locationType
    if cached.length != 0 then
      (.ok (cached.map (fun doc => annotateCached doc collectionName)), noCalls)
    else
      match osmQueryFor env normalizedName locationType category with
      | .error e => (.error e, { noCalls with overpass := 1 })
      | .ok osmResults =>
          let rc := processAllResults env osmResults [] { noCalls with overpass := 1 }
          if rc.1.length == 0 then
            (.error ("No results found for \"" ++ normalizedName ++ "\""), rc.2)
          else (.ok rc.1, rc.2)

/-- The fixed probe order of getLocationById when no collection is given:
cities, mountains, natural_sites, cultural_sites - the peaks collection
is absent from this list. -/
def findInCollections (store : List StoredDoc) (locationId : String) :
    List String → Option StoredDoc
  | [] => none
  | c :: rest =>
      match store.find? (fun d => d.collection == c && d.docId == locationId) with
      | some doc => some doc
      | none => findInCollections store locationId rest

/-- Translation of getLocationById: a specified collection is read
directly; otherwise the four collections cities, mountains,
natural_sites, cultural_sites are probed in order. -/
def getLocationById (store : List StoredDoc) (locationId : String)
    (collectionName : Option String) : Except String SearchResult :=
  if jsTruthyS collectionName then
    let c := collectionName.getD ""
    match store.find? (fun d => d.collection == c && d.docId == locationId) with
    | some doc => .ok ⟨doc.data, doc.docId, c⟩
    | none => .error ("Location with ID \"" ++ locationId ++ "\" not found in " ++ c)
  else
    match findInCollections store locationId
        [COLLECTIONS_CITIES, COLLECTIONS_MOUNTAINS, COLLECTIONS_NATURAL_SITES,
         COLLECTIONS_CULTURAL_SITES] with
    | some doc => .ok ⟨doc.data, doc.docId, doc.collection⟩
    | none => .error ("Location with ID \"" ++ locationId ++ "\" not found")

/-! ## Cities server (cities-mcp-server index.js, city-validation.js) -/

/-- The external collaborators of the cities server. -/
structure CityEnv where
  store : List StoredDoc
  searchByName : String → Except String (List OsmItem)
  wikipedia : String → Except String (Option WikipediaInfo)
  wikidata : String → Except String (Option WikidataInfo)
  now : String
  newId : Nat → String

/-- The cities-server result record (no collection field: there is only
the single cities collection). -/
structure CityResult where
  data : Enriched
  id : String
deriving DecidableEq

def CITIES_COLLECTION_NAME : String := "cities"

/-- Latitude check of validateCityData: present, numeric and in range. -/
def latOk (lat : Option ℚ) : Bool :=
  match lat with
  | some q => decide (-90 ≤ q) && decide (q ≤ 90)
  | none => false

/-- Longitude check of validateCityData: present, numeric and in range. -/
def lonOk (lon : Option ℚ) : Bool :=
  match lon with
  | some q => decide (-180 ≤ q) && decide (q ≤ 180)
  | none => false

/-- Translation of validateCityData: the four checks run independently and
all errors are collected (the source also returns the data when valid,
which carries no extra information). -/
def validateCityData (data : Enriched) : Bool × List (String × String) :=
  let errors :=
    (if !jsTruthyS data.name then [("name", "Name is required and must be a string")] else []) ++
    (if !latOk data.lat then [("lat", "Valid latitude is required (-90 to 90)")] else []) ++
    (if !lonOk data.lon then [("lon", "Valid longitude is required (-180 to 180)")] else []) ++
    (if data.type == "" then [("type", "Type is required")] else [])
  (errors.length == 0, errors)

/-- The cities-server merge (step 5 of searchCity): fields are
unconditional, so falsy values are stored as absent values rather than
being omitted; the images array is built exactly as in
enrichLocationData. -/
def cityMerge (osmData : OsmItem) (wikipediaData : Option WikipediaInfo)
    (wikidataData : Option WikidataInfo) (now : String) : Enriched :=
  { name := osmData.name
    type := osmData.type
    lat := osmData.lat
    lon := osmData.lon
    osmId := osmData.osmId
    osmType := osmData.osmType
    osmTags := osmData.osmTags
    description := jsOrS (wikipediaData.bind (fun w => w.description))
      (wikidataData.bind (fun w => w.description))
    wikipediaUrl := wikipediaData.bind (fun w => w.url)
    wikipediaLang := wikipediaData.map (fun w => w.lang)
    population := wikidataData.bind (fun w => w.population)
    elevation :=
      if jsTruthyN (wikidataData.bind (fun w => w.elevation)) then
        wikidataData.bind (fun w => w.elevation)
      else if jsTruthyS (osmData.osmTags.get "ele") then
        some (jsParseInt ((osmData.osmTags.get "ele").getD ""))
      else none
    area := wikidataData.bind (fun w => w.area)
    officialWebsite := wikidataData.bind (fun w => w.officialWebsite)
    images := filterBoolean ((wikipediaData.bind (fun w => w.image)) ::
      (wikipediaData.bind (fun w => w.thumbnail)) ::
      ((wikidataData.map (fun w => w.images)).getD []).map some)
    wikidataId := osmData.wikidata
    wikipediaTag := osmData.wikipedia
    lastUpdated := now
    source := "osm" }

/-- Translation of the cities-server searchCity: cache-first on the single
cities collection; on a miss, one un-typed feature search; the Wikipedia
call is not wrapped in try/catch, so a thrown narrative-adapter error
propagates and aborts the call, while the Wikidata call is caught and
degrades to no enrichment; then the unconditional merge, validation and a
single write. -/
def searchCity (env : CityEnv) (cityName : String) : Except String CityResult × Calls :=
  if cityName == "" then (.error "City name is required", noCalls)
  else
    let normalizedName := jsTrim cityName
    match (env.store.filter (fun d =>
        d.collection == CITIES_COLLECTION_NAME && d.data.name == some normalizedName)).head? with
    | some doc => (.ok ⟨{ doc.data with source := "cache" }, doc.docId⟩, noCalls)
    | none =>
        match env.searchByName normalizedName with
        | .error e => (.error e, { noCalls with overpass := 1 })
        | .ok [] =>
            (.error ("No results found for \"" ++ normalizedName ++ "\""),
             { noCalls with overpass := 1 })
        | .ok (osmData :: _) =>
            let wpCount := if jsTruthyS osmData.wikipedia then 1 else 0
            let wpRes : Except String (Option WikipediaInfo) :=
              if jsTruthyS osmData.wikipedia then env.wikipedia (osmData.wikipedia.getD "")
              else .ok none
            match wpRes with
            | .error e => (.error e, { noCalls with overpass := 1, wikipedia := wpCount })
            | .ok wikipediaData =>
                let wdPair := caughtCall env.wikidata osmData.wikidata
                let enrichedData := cityMerge osmData wikipediaData wdPair.1 env.now
                let v := validateCityData enrichedData
                let calls : Calls :=
                  { noCalls with
                     overpass := 1
                     wikipedia := wpCount
                     wikidata := wdPair.2
                     validate := 1 }
                if !v.1 then
                  (.error ("Invalid city data: " ++
                    String.intercalate "; " (v.2.map (fun e => e.2))), calls)
                else
                  (.ok ⟨enrichedData, env.newId 0⟩,
                   { calls with writes := [(CITIES_COLLECTION_NAME, enrichedData)] })

/-! ## Concrete fixtures used by the closed theorems and witnesses -/

/-- A minimal enriched record as it would sit in the store. -/
def sampleEnriched : Enriched :=
  { name := some "Musala"
    type := "peak"
    lat := some 42
    lon := some 23
    osmId := 1
    osmType := "node"
    osmTags := []
    description := some "d"
    wikipediaUrl := none
    wikipediaLang := none
    population := none
    elevation := none
    area := none
    officialWebsite := none
    images := []
    wikidataId := none
    wikipediaTag := none
    lastUpdated := "T"
    source := "osm" }

/-- A store document living in the peaks collection. -/
def peaksDoc : StoredDoc := ⟨"p1", "peaks", sampleEnriched⟩

/-- A store document living in the deprecated default collection. -/
def cachedDoc : StoredDoc := ⟨"d1", "locations", sampleEnriched⟩

/-- An environment whose collaborators are inert: the feature searches all
return the given list, both adapters return no data, and the validator
accepts everything. -/
def baseEnv (store : List StoredDoc) (found : List OsmItem) : Env :=
  { store := store
    searchByName := fun _ _ => .ok found
    searchCities := fun _ => .ok found
    searchMountains := fun _ => .ok found
    searchPeaks := fun _ => .ok found
    searchNaturalSites := fun _ => .ok found
    searchCulturalSites := fun _ => .ok found
    wikipedia := fun _ => .ok none
    wikidata := fun _ => .ok none
    validate := fun _ => (true, [])
    now := "T"
    newId := fun n => toString n }

/-- Raw feature at 42, 23. -/
def osmA : OsmItem := ⟨1, "node", some "Rila", "peak", some 42, some 23, none, none, []⟩

/-- Raw feature at 42.0003, 23.0004: within a thousandth of a degree of
osmA on both axes; it carries a wikipedia tag so that enriching it would
be observable. -/
def osmB : OsmItem :=
  ⟨2, "node", some "Rila", "peak", some (mkRat 420003 10000), some (mkRat 230004 10000),
   some "bg:Rila2", none, []⟩

/-- Raw feature at 42.01, 23.01: a hundredth of a degree away from osmA
on both axes. -/
def osmC : OsmItem :=
  ⟨3, "node", some "Rila", "peak", some (mkRat 4201 100), some (mkRat 2301 100),
   some "bg:Rila3", none, []⟩

/-- A found city feature carrying a wikipedia cross-reference tag. -/
def osmSofia : OsmItem :=
  ⟨10, "node", some "Sofia", "city", some (mkRat 427 10), some (mkRat 233 10),
   some "bg:Sofia", none, []⟩

/-- A cities-server environment whose narrative adapter throws. -/
def cityThrowEnv : CityEnv :=
  { store := []
    searchByName := fun _ => .ok [osmSofia]
    wikipedia := fun _ => .error "Wikipedia API timeout"
    wikidata := fun _ => .ok none
    now := "T"
    newId := fun _ => "id0" }

/-- A narrative summary whose primary image and thumbnail are the same
URL. -/
def wpDupImages : WikipediaInfo :=
  { title := some "X"
    description := some "d"
    thumbnail := some "u"
    image := some "u"
    url := some "http://x"
    lang := "en" }

/-- A feature carrying a wikipedia tag only. -/
def osmWithWiki : OsmItem := ⟨11, "node", some "X", "city", some 42, some 23, some "en:X", none, []⟩

/-- An environment whose narrative adapter returns the duplicated-image
summary. -/
def envDupImages : Env :=
  { baseEnv [] [] with wikipedia := fun _ => .ok (some wpDupImages) }

/-- A narrative summary with distinct thumbnail and image. -/
def wpInfoW : WikipediaInfo := ⟨some "X", some "d", some "t.jpg", some "i.jpg", some "u", "en"⟩

/-- A structured-facts record with two images. -/
def wdInfoW : WikidataInfo := ⟨some "X", some "d", none, none, none, ["w1.jpg", "w2.jpg"], none, none⟩

/-- A feature carrying both cross-reference identifiers. -/
def osmBoth : OsmItem := ⟨12, "node", some "X", "city", some 42, some 23, some "en:X", some "Q1", []⟩

/-- An environment where both adapters return data. -/
def envBoth : Env :=
  { baseEnv [] [] with
     wikipedia := fun _ => .ok (some wpInfoW)
     wikidata := fun _ => .ok (some wdInfoW) }

/-! ## Lemmas and claim theorems -/

lemma escapeClass_append (cls : List Char) (a b : List Char) :
    escapeClass cls (a ++ b) = escapeClass cls a ++ escapeClass cls b := by
  induction a with
  | nil => rfl
  | cons c rest ih =>
      by_cases h : c ∈ cls <;> simp [escapeClass, h, ih]

lemma escapeClass_singleton (cls : List Char) (c : Char) :
    escapeClass cls [c] = if c ∈ cls then ['\\', c] else [c] := by
  by_cases h : c ∈ cls <;> simp [escapeClass, h]

lemma escapeClass_cons_eq (cls : List Char) (c : Char) (l : List Char) :
    escapeClass cls (c :: l) = escapeClass cls [c] ++ escapeClass cls l := by
  by_cases h : c ∈ cls <;> simp [escapeClass, h]

lemma escapePasses_single (c : Char) :
    escapeClass regexClass (escapeClass parenClass (escapeClass bracketClass
      (escapeClass quoteClass (escapeClass backslashClass [c])))) =
    if c ∈ overpassSpecials then ['\\', c] else [c] := by
  by_cases h : c ∈ overpassSpecials
  · rw [if_pos h]
    simp only [overpassSpecials, List.mem_cons, List.not_mem_nil, or_false] at h
    rcases h with rfl | rfl | rfl | rfl | rfl | rfl | rfl | rfl | rfl | rfl | rfl | rfl | rfl | rfl | rfl
    all_goals decide
  · rw [if_neg h]
    simp only [overpassSpecials, List.mem_cons, List.not_mem_nil, or_false, not_or] at h
    obtain ⟨h1, h2, h3, h4, h5, h6, h7, h8, h9, h10, h11, h12, h13, h14, h15⟩ := h
    simp [escapeClass, backslashClass, quoteClass, bracketClass, parenClass, regexClass,
      h1, h2, h3, h4, h5, h6, h7, h8, h9, h10, h11, h12, h13, h14, h15]

lemma escapeSearchTerm_eq_escapeOnce (s : List Char) :
    escapeSearchTerm s = escapeClass overpassSpecials s := by
  induction s with
  | nil => rfl
  | cons c rest ih =>
      show escapeClass regexClass (escapeClass parenClass (escapeClass bracketClass
        (escapeClass quoteClass (escapeClass backslashClass (c :: rest))))) = _
      rw [escapeClass_cons_eq backslashClass c rest, escapeClass_append, escapeClass_append,
        escapeClass_append, escapeClass_append, escapePasses_single,
        escapeClass_cons_eq overpassSpecials c rest, escapeClass_singleton]
      exact congrArg _ ih

/-- C5: determineType applies its rules first-match-wins in the order
place, natural, tourism, historic, amenity: an explicit place tag always
wins; a historic castle maps to castle; an unmapped tourism value maps to
attraction; any unmapped historic value maps to historical_site; a place
of worship maps to church exactly when religion is christian; the empty
tag set maps to unknown; and natural beats tourism, tourism beats
historic. -/
theorem C5_determineType_first_match :
    (∀ tags : Tags, ∀ p, tags.get "place" = some p → p ≠ "" → determineType tags = p) ∧
    determineType [("historic", "castle")] = "castle" ∧
    determineType [("tourism", "zoo")] = "attraction" ∧
    (∀ h : String, h ≠ "" →
      h ∉ ["castle", "fort", "ruins", "archaeological_site", "monastery", "memorial", "church"] →
      determineType [("historic", h)] = "historical_site") ∧
    determineType [("amenity", "place_of_worship"), ("religion", "christian")] = "church" ∧
    determineType [("amenity", "place_of_worship")] = "place_of_worship" ∧
    determineType ([] : Tags) = "unknown" ∧
    determineType [("natural", "peak"), ("tourism", "museum")] = "peak" ∧
    determineType [("tourism", "museum"), ("historic", "castle")] = "museum" := by
  refine ⟨?_, by decide, by decide, ?_, by decide, by decide, by decide, by decide, by decide⟩
  · intro tags p hget hp
    have ht : jsTruthyS (tags.get "place") = true := by
      rw [hget]; simp [jsTruthyS, hp]
    rw [determineType, if_pos ht, hget]
    rfl
  · intro h hne hmem
    simp only [List.mem_cons, List.not_mem_nil, or_false, not_or] at hmem
    obtain ⟨m1, m2, m3, m4, m5, m6, m7⟩ := hmem
    simp [determineType, Tags.get, List.find?, jsTruthyS, hne, m1, m2, m3, m4, m5, m6, m7]

/-- C5 witness: the general conjuncts of the theorem instantiated at
concrete inputs. -/
theorem C5_witness :
    determineType [("place", "city"), ("historic", "castle")] = "city" ∧
    determineType [("historic", "windmill")] = "historical_site" :=
  ⟨C5_determineType_first_match.1 [("place", "city"), ("historic", "castle")] "city" rfl
      (by decide),
   C5_determineType_first_match.2.2.2.1 "windmill" (by decide) (by decide)⟩

/-- C7: escapeSearchTerm is equivalent to escaping each special character
exactly once (backslash, double quote, square brackets, parentheses and
the remaining regex metacharacters), because backslashes are escaped
before all other characters; on an input containing a backslash, a quote,
a bracket, a parenthesis and a dot, each appears exactly once
backslash-escaped, and the input a-backslash-quote-b is not
triple-escaped. -/
theorem C7_escape_backslash_first :
    (∀ s : List Char, escapeSearchTerm s = escapeClass overpassSpecials s) ∧
    escapeSearchTerm ['a', '\\', '"', 'b'] = ['a', '\\', '\\', '\\', '"', 'b'] ∧
    escapeSearchTerm ['\\', '"', '[', '(', '.'] =
      ['\\', '\\', '\\', '"', '\\', '[', '\\', '(', '\\', '.'] :=
  ⟨escapeSearchTerm_eq_escapeOnce, by decide, by decide⟩

/-- C7 witness: the single-pass equivalence instantiated at one
character. -/
theorem C7_witness : escapeSearchTerm ['('] = escapeClass overpassSpecials ['('] :=
  C7_escape_backslash_first.1 ['(']

/-- C10: every item returned by parseOverpassResults has truthy name, lat
and lon; an element with an empty name or a resolved zero coordinate is
dropped even when the field is present; an element with no direct point
falls back to its center before the filter. -/
theorem C10_parse_drops_falsy :
    (∀ data : OverpassData, ∀ item ∈ parseOverpassResults data,
        jsTruthyS item.name ∧ jsTruthyQ item.lat ∧ jsTruthyQ item.lon) ∧
    parseOverpassResults ⟨some [⟨1, "node", some 42, some 23, none, some [("name", "")]⟩]⟩ = [] ∧
    parseOverpassResults ⟨some [⟨2, "node", some 0, some 23, none, some [("name", "A")]⟩]⟩ = [] ∧
    parseOverpassResults ⟨some [⟨3, "node", some 42, some 0, none, some [("name", "A")]⟩]⟩ = [] ∧
    parseOverpassResults ⟨some [⟨4, "way", none, none, some (42, 23), some [("name", "A")]⟩]⟩ =
      [⟨4, "way", some "A", "unknown", some 42, some 23, none, none, [("name", "A")]⟩] := by
  refine ⟨?_, by decide, by decide, by decide, by decide⟩
  intro data item h
  rcases data with ⟨elements⟩
  cases elements with
  | none => simp [parseOverpassResults] at h
  | some es =>
      simp only [parseOverpassResults] at h
      by_cases hlen : es.length == 0
      · rw [if_pos hlen] at h
        simp at h
      · rw [if_neg hlen] at h
        have hp := (List.mem_filter.mp h).2
        simp only [Bool.and_eq_true] at hp
        exact ⟨hp.1.1, hp.1.2, hp.2⟩

/-- C10 witness: the membership conjunct instantiated at a concrete
response whose single element survives the filter. -/
theorem C10_witness :
    jsTruthyS (some "A") ∧ jsTruthyQ (some (42 : ℚ)) ∧ jsTruthyQ (some (23 : ℚ)) :=
  C10_parse_drops_falsy.1
    ⟨some [⟨5, "node", some 42, some 23, none, some [("name", "A")]⟩]⟩
    ⟨5, "node", some "A", "unknown", some 42, some 23, none, none, [("name", "A")]⟩
    (by decide)

/-- C4: un-typed searchByName runs the places query first and returns its
nonempty results without issuing the natural or cultural query; on empty
results or a thrown stage error it falls through to the natural-features
query and then the cultural query, and a final-stage throw surfaces a
not-found error naming the term. -/
theorem C4_progressive_fallback :
    (∀ net term r, executeQuery net (.places term) = .ok r → r ≠ [] →
        searchByNameOP net term none = (.ok r, [.places term])) ∧
    (∀ net term r, executeQuery net (.places term) = .ok [] →
        executeQuery net (.naturalFeatures term) = .ok r → r ≠ [] →
        searchByNameOP net term none = (.ok r, [.places term, .naturalFeatures term])) ∧
    (∀ net term e r, executeQuery net (.places term) = .error e →
        executeQuery net (.naturalFeatures term) = .ok r → r ≠ [] →
        searchByNameOP net term none = (.ok r, [.places term, .naturalFeatures term])) ∧
    (∀ net term e1 e2 e3,
        executeQuery net (.places term) = .error e1 →
        executeQuery net (.naturalFeatures term) = .error e2 →
        executeQuery net (.cultural term) = .error e3 →
        searchByNameOP net term none =
          (.error ("No results found for \"" ++ term ++ "\""),
           [.places term, .naturalFeatures term, .cultural term])) ∧
    (∀ net term e3,
        executeQuery net (.places term) = .ok [] →
        executeQuery net (.naturalFeatures term) = .ok [] →
        executeQuery net (.cultural term) = .error e3 →
        searchByNameOP net term none =
          (.error ("No results found for \"" ++ term ++ "\""),
           [.places term, .naturalFeatures term, .cultural term])) := by
  refine ⟨?_, ?_, ?_, ?_, ?_⟩
  · intro net term r hq hr
    have hlen : r.length > 0 := List.length_pos.mpr hr
    simp [searchByNameOP, jsTruthyS, hq, hlen]
  · intro net term r hp hn hr
    have hlen : r.length > 0 := List.length_pos.mpr hr
    simp [searchByNameOP, searchByNameNatural, jsTruthyS, hp, hn, hlen]
  · intro net term e r hp hn hr
    have hlen : r.length > 0 := List.length_pos.mpr hr
    simp [searchByNameOP, searchByNameNatural, jsTruthyS, hp, hn, hlen]
  · intro net term e1 e2 e3 hp hn hc
    simp [searchByNameOP, searchByNameNatural, searchByNameCultural, jsTruthyS, hp, hn, hc]
  · intro net term e3 hp hn hc
    simp [searchByNameOP, searchByNameNatural, searchByNameCultural, jsTruthyS, hp, hn, hc]

/-- C4 witness: with every stage throwing, the caller sees the not-found
error and all three stages were issued in order. -/
theorem C4_witness :
    searchByNameOP ⟨fun _ => .error "Overpass API timeout"⟩ "Мусала" none =
      (.error ("No results found for \"" ++ "Мусала" ++ "\""),
       [.places "Мусала", .naturalFeatures "Мусала", .cultural "Мусала"]) :=
  C4_progressive_fallback.2.2.2.1 ⟨fun _ => .error "Overpass API timeout"⟩ "Мусала"
    "Overpass API timeout" "Overpass API timeout" "Overpass API timeout" rfl rfl rfl

lemma getInfoLoop_calls_le (oracle : Nat → WDOutcome) (l : List Nat) (calls : Nat)
    (delays : List Nat) : (getInfoLoop oracle l calls delays).calls ≤ calls + l.length := by
  induction l generalizing calls delays with
  | nil => simp [getInfoLoop]
  | cons attempt rest ih =>
      rw [getInfoLoop]
      cases oracle attempt with
      | httpOk entity =>
          dsimp only
          rw [List.length_cons]
          omega
      | httpStatus status =>
          dsimp only
          split
          · split
            · exact le_trans (ih _ _) (by rw [List.length_cons]; omega)
            · dsimp only
              rw [List.length_cons]
              omega
          · dsimp only
            rw [List.length_cons]
            omega
      | abortTimeout =>
          dsimp only
          split
          · exact le_trans (ih _ _) (by rw [List.length_cons]; omega)
          · dsimp only
            rw [List.length_cons]
            omega
      | netError code =>
          dsimp only
          split
          · exact le_trans (ih _ _) (by rw [List.length_cons]; omega)
          · dsimp only
            rw [List.length_cons]
            omega
      | otherError msg =>
          dsimp only
          split
          · dsimp only
            rw [List.length_cons]
            omega
          · exact le_trans (ih _ _) (by rw [List.length_cons]; omega)

/-- C2 counterexample: a non-retryable (generic) error on the first
attempt does not propagate immediately - the service silently consumes a
further attempt and succeeds; and exhausting retries on 5xx statuses
returns a null result instead of surfacing a classified error. -/
theorem C2_counterexample :
    (wikidataGetInfo "Q42"
        (fun n => if n == 1 then .otherError "boom" else .httpOk (some sampleWD))).calls = 2 ∧
    (wikidataGetInfo "Q42"
        (fun n => if n == 1 then .otherError "boom" else .httpOk (some sampleWD))).result =
      .ok (some sampleWD) ∧
    wikidataGetInfo "Q42" (fun _ => .httpStatus 503) = ⟨3, [1000, 2000], .ok none⟩ := by
  refine ⟨by decide, by decide, by decide⟩

set_option maxRecDepth 8192

/-- C2 amended: getInfo makes at most 3 outbound calls, with exponentially
increasing delays (1s base, doubling) before retries on 5xx/429, timeout
and transient network errors; 503, 503, 200 succeeds on the third attempt
with exactly 3 calls and delays 1000ms then 2000ms; 404 returns a null
result immediately with no retry and no delay; exhausting retries on a
timeout or a transient network error throws a distinct human-readable
message classified by the failure kind; exhausting retries on 5xx/429
returns a null result; any other error is retried without delay and is
thrown only when it occurs on the final attempt. -/
theorem C2_retry_policy :
    (∀ id oracle, (wikidataGetInfo id oracle).calls ≤ 3) ∧
    (∀ oracle, oracle 1 = .httpStatus 503 → oracle 2 = .httpStatus 503 →
        oracle 3 = .httpOk (some sampleWD) →
        wikidataGetInfo "Q42" oracle = ⟨3, [1000, 2000], .ok (some sampleWD)⟩) ∧
    (∀ oracle, oracle 1 = .httpStatus 404 →
        wikidataGetInfo "Q42" oracle = ⟨1, [], .ok none⟩) ∧
    wikidataGetInfo "Q42" (fun _ => .abortTimeout) =
      ⟨3, [1000, 2000], .error "Wikidata API timeout after 3 attempts"⟩ ∧
    (∀ code, wikidataGetInfo "Q42" (fun _ => .netError code) =
      ⟨3, [1000, 2000],
        .error (getNetworkErrorMessage code ++ " (after 3 attempts)")⟩) ∧
    (∀ msg, wikidataGetInfo "Q42" (fun _ => .otherError msg) = ⟨3, [], .error msg⟩) := by
  refine ⟨?_, ?_, ?_, by decide, ?_, ?_⟩
  · intro id oracle
    rw [wikidataGetInfo]
    by_cases hg : (id == "" || !(jsStartsWith id "Q")) = true
    · rw [if_pos hg]; simp
    · rw [if_neg hg]
      simpa using getInfoLoop_calls_le oracle [1, 2, 3] 0 []
  · intro oracle h1 h2 h3
    rw [wikidataGetInfo, if_neg (by decide)]
    simp [getInfoLoop, h1, h2, h3, MAX_RETRY_ATTEMPTS, wdRetryDelay, INITIAL_RETRY_DELAY]
  · intro oracle h1
    rw [wikidataGetInfo, if_neg (by decide)]
    simp [getInfoLoop, h1]
  · intro code
    cases code <;> decide
  · intro msg
    rw [wikidataGetInfo, if_neg (by decide)]
    simp [getInfoLoop, MAX_RETRY_ATTEMPTS]

/-- C2 witness: the 503/503/200 conjunct instantiated at a concrete mock
oracle. -/
theorem C2_witness :
    wikidataGetInfo "Q42"
        (fun n => if n == 1 || n == 2 then .httpStatus 503 else .httpOk (some sampleWD)) =
      ⟨3, [1000, 2000], .ok (some sampleWD)⟩ :=
  C2_retry_policy.2.1 _ rfl rfl rfl

lemma caughtCall_congr {α : Type} (a₁ a₂ : String → Except String (Option α))
    (tag : Option String) (h : ∀ s, s ≠ "" → a₁ s = a₂ s) :
    caughtCall a₁ tag = caughtCall a₂ tag := by
  unfold caughtCall
  by_cases ht : jsTruthyS tag = true
  · rw [if_pos ht, if_pos ht, h]
    cases tag with
    | none => simp [jsTruthyS] at ht
    | some s => simpa [jsTruthyS, bne_iff_ne] using ht
  · rw [if_neg ht, if_neg ht]

lemma caughtCall_count {α : Type} (adapter : String → Except String (Option α))
    (tag : Option String) :
    (caughtCall adapter tag).2 = if jsTruthyS tag then 1 else 0 := by
  unfold caughtCall
  by_cases ht : jsTruthyS tag = true
  · simp only [ht, if_true]
    cases adapter (tag.getD "") <;> rfl
  · simp [ht]

lemma caughtCall_error {α : Type} (f : String → String) (tag : Option String) :
    caughtCall (fun s => (Except.error (f s) : Except String (Option α))) tag =
      caughtCall (fun _ => .ok none) tag := by
  unfold caughtCall
  by_cases ht : jsTruthyS tag = true
  · simp [ht]
  · simp [ht]

lemma filterBoolean_no_empty (l : List (Option String)) : "" ∉ filterBoolean l := by
  intro h
  simp only [filterBoolean, List.mem_filterMap] at h
  obtain ⟨o, _, ho⟩ := h
  cases o with
  | none => simp at ho
  | some s =>
      by_cases hs : (s != "") = true
      · simp only [hs, if_true] at ho
        rw [Option.some.injEq] at ho
        rw [ho] at hs
        simp at hs
      · simp [hs] at ho

lemma absLtEps_iff (x y : ℚ) :
    absLtEps (some x) (some y) = true ↔ |x - y| < 1 / 1000 := by
  show decide _ = true ↔ _
  rw [decide_eq_true_eq]
  have hdx : (0 : ℚ) < (x.den : ℚ) := by exact_mod_cast x.pos
  have hdy : (0 : ℚ) < (y.den : ℚ) := by exact_mod_cast y.pos
  have hsub : x - y = (((x.num * (y.den : Int) - y.num * (x.den : Int)) : Int) : ℚ) /
      ((x.den : ℚ) * (y.den : ℚ)) := by
    conv_lhs => rw [← Rat.num_div_den x, ← Rat.num_div_den y]
    rw [div_sub_div _ _ (ne_of_gt hdx) (ne_of_gt hdy)]
    push_cast
    ring_nf
  rw [hsub, abs_div, abs_of_pos (by positivity : (0:ℚ) < (x.den : ℚ) * (y.den : ℚ)),
    div_lt_div_iff₀ (by positivity) (by norm_num : (0:ℚ) < 1000)]
  rw [one_mul, ← Int.cast_abs, Int.abs_eq_natAbs]
  constructor
  · intro h
    have h2 : ((x.num * (y.den : Int) - y.num * (x.den : Int)).natAbs * 1000 : ℕ) <
        x.den * y.den := by omega
    exact_mod_cast h2
  · intro h
    have h2 : ((x.num * (y.den : Int) - y.num * (x.den : Int)).natAbs * 1000 : ℕ) <
        x.den * y.den := by exact_mod_cast h
    omega

/-- C1: a cache hit short-circuits everything: when the cache query (exact
name in the target collection, and exact type when a type is given) has a
first match, searchLocation returns that stored record annotated with
source cache and performs no feature search, no enrichment, no validation
and no write; and whenever the cache query has any match at all,
searchAllLocations returns all cached matches annotated and performs no
external call and no write. -/
theorem C1_cache_hit_short_circuits :
    (∀ (env : Env) (locationName : String) (locationType category : Option String)
        (doc : StoredDoc),
        locationName ≠ "" →
        (cacheMatches env.store (targetCollection locationType category)
            (jsTrim locationName) locationType).head? = some doc →
        searchLocation env locationName locationType category =
          (.ok (annotateCached doc (targetCollection locationType category)), noCalls)) ∧
    (∀ (env : Env) (locationName : String) (locationType category : Option String),
        locationName ≠ "" →
        cacheMatches env.store (targetCollection locationType category)
            (jsTrim locationName) locationType ≠ [] →
        searchAllLocations env locationName locationType category =
          (.ok ((cacheMatches env.store (targetCollection locationType category)
                (jsTrim locationName) locationType).map
              (fun doc => annotateCached doc (targetCollection locationType category))),
           noCalls)) := by
  constructor
  · intro env locationName locationType category doc hn hdoc
    have hne : (locationName == "") = false := beq_eq_false_iff_ne.mpr hn
    simp [searchLocation, hne, hdoc]
  · intro env locationName locationType category hn hcache
    have hne : (locationName == "") = false := beq_eq_false_iff_ne.mpr hn
    have hlen : (cacheMatches env.store (targetCollection locationType category)
        (jsTrim locationName) locationType).length ≠ 0 := by
      simpa [List.length_eq_zero] using hcache
    simp [searchAllLocations, hne, hlen]

/-- C1 witness: a store holding one matching record in the default
collection is returned annotated, with the empty call log, by both
operations. -/
theorem C1_witness :
    searchLocation (baseEnv [cachedDoc] []) "Musala" none none =
      (.ok (annotateCached cachedDoc (targetCollection none none)), noCalls) ∧
    searchAllLocations (baseEnv [cachedDoc] []) "Musala" none none =
      (.ok ((cacheMatches (baseEnv [cachedDoc] []).store (targetCollection none none)
            (jsTrim "Musala") none).map
          (fun doc => annotateCached doc (targetCollection none none))), noCalls) :=
  ⟨C1_cache_hit_short_circuits.1 (baseEnv [cachedDoc] []) "Musala" none none cachedDoc
      (by decide) (by decide),
   C1_cache_hit_short_circuits.2 (baseEnv [cachedDoc] []) "Musala" none none
      (by decide) (by decide)⟩

/-- C6: within one searchAllLocations batch, a feature within the
proximity threshold (strictly less than a thousandth of a degree on both
axes) of an already-accepted result is skipped without being enriched or
persisted, and the proximity test is exactly that both coordinate
differences are below the threshold; concretely, with an empty cache, the
feature at 42.0003, 23.0004 is deduplicated against the accepted 42, 23
(one result, one write, no enrichment call for the duplicate) while the
feature at 42.01, 23.01 is distinct (two results, two writes, one
enrichment call for it). -/
theorem C6_proximity_dedup :
    (∀ env osmData rest results calls,
        results.any (fun r => isDupOf r osmData) = true →
        processAllResults env (osmData :: rest) results calls =
          processAllResults env rest results calls) ∧
    (∀ (r : SearchResult) (osmData : OsmItem) (x y u v : ℚ),
        r.data.lat = some x → r.data.lon = some y →
        osmData.lat = some u → osmData.lon = some v →
        (isDupOf r osmData = true ↔ (|x - u| < 1 / 1000 ∧ |y - v| < 1 / 1000))) ∧
    (searchAllLocations (baseEnv [] [osmA, osmB]) "Rila" none none).1.toOption.map
        List.length = some 1 ∧
    (searchAllLocations (baseEnv [] [osmA, osmB]) "Rila" none none).2.wikipedia = 0 ∧
    (searchAllLocations (baseEnv [] [osmA, osmB]) "Rila" none none).2.writes.length = 1 ∧
    (searchAllLocations (baseEnv [] [osmA, osmC]) "Rila" none none).1.toOption.map
        List.length = some 2 ∧
    (searchAllLocations (baseEnv [] [osmA, osmC]) "Rila" none none).2.wikipedia = 1 ∧
    (searchAllLocations (baseEnv [] [osmA, osmC]) "Rila" none none).2.writes.length = 2 := by
  refine ⟨?_, ?_, by decide, by decide, by decide, by decide, by decide, by decide⟩
  · intro env osmData rest results calls h
    simp [processAllResults, h]
  · intro r osmData x y u v hx hy hu hv
    rw [isDupOf, hx, hy, hu, hv, Bool.and_eq_true, absLtEps_iff, absLtEps_iff]

/-- C6 witness: the skip conjunct instantiated at a batch whose head
duplicates the single accepted result. -/
theorem C6_witness :
    processAllResults (baseEnv [] []) [osmB] [⟨sampleEnriched, "0", "peaks"⟩] noCalls =
      processAllResults (baseEnv [] []) [] [⟨sampleEnriched, "0", "peaks"⟩] noCalls :=
  C6_proximity_dedup.1 (baseEnv [] []) osmB [] [⟨sampleEnriched, "0", "peaks"⟩] noCalls
    (by decide)

/-- C8: getLocationById without a collection argument probes only the four
collections cities, mountains, natural_sites and cultural_sites, so a
document that exists only in the peaks partition (one of the five storage
partitions) is reported not found, although the same id is returned when
the peaks collection is named explicitly. -/
theorem C8_peaks_partition_not_probed :
    getLocationById [peaksDoc] "p1" none =
      .error "Location with ID \"p1\" not found" ∧
    getLocationById [peaksDoc] "p1" (some "peaks") = .ok ⟨sampleEnriched, "p1", "peaks"⟩ ∧
    peaksDoc.collection = COLLECTIONS_PEAKS := by
  refine ⟨by decide, by decide, by decide⟩

/-- C3 counterexample: in the cities-server pipeline the narrative
(Wikipedia) adapter call is not guarded by try/catch, so a throwing
narrative adapter aborts the whole resolution: with an empty cache, one
found feature carrying a wikipedia tag and a throwing Wikipedia adapter,
searchCity surfaces the adapter's error instead of degrading. -/
theorem C3_counterexample :
    (searchCity cityThrowEnv "Sofia").1 = .error "Wikipedia API timeout" := by decide

/-- C3 amended: in the locations pipeline each enrichment adapter is
invoked only when the feature carries the corresponding truthy
cross-reference identifier (the adapters' behavior on the empty
identifier is irrelevant), and a throwing adapter is indistinguishable
from one returning no data, so enrichment failures never abort; in the
cities pipeline the structured-facts (Wikidata) adapter's failures are
likewise absorbed, but a thrown narrative (Wikipedia) adapter error
propagates and aborts the call. -/
theorem C3_enrichment_guarded :
    (∀ env osmData, (enrichLocationData env osmData).2.wikipedia =
        (if jsTruthyS osmData.wikipedia then 1 else 0) ∧
      (enrichLocationData env osmData).2.wikidata =
        (if jsTruthyS osmData.wikidata then 1 else 0)) ∧
    (∀ (α : Type) (a₁ a₂ : String → Except String (Option α)) (tag : Option String),
        (∀ s, s ≠ "" → a₁ s = a₂ s) → caughtCall a₁ tag = caughtCall a₂ tag) ∧
    (∀ (env : Env) (f g : String → String) (osmData : OsmItem),
        enrichLocationData
          { env with
             wikipedia := fun s => .error (f s)
             wikidata := fun s => .error (g s) } osmData =
        enrichLocationData
          { env with
             wikipedia := fun _ => .ok none
             wikidata := fun _ => .ok none } osmData) ∧
    (∀ (env : CityEnv) (name : String) (osmData : OsmItem) (rest : List OsmItem) (e : String),
        name ≠ "" →
        env.store.filter (fun d =>
          d.collection == CITIES_COLLECTION_NAME && d.data.name == some (jsTrim name)) = [] →
        env.searchByName (jsTrim name) = .ok (osmData :: rest) →
        jsTruthyS osmData.wikipedia = true →
        env.wikipedia (osmData.wikipedia.getD "") = .error e →
        (searchCity env name).1 = .error e) ∧
    (∀ (env : CityEnv) (g : String → String) (name : String),
        searchCity { env with wikidata := fun s => .error (g s) } name =
        searchCity { env with wikidata := fun _ => .ok none } name) := by
  refine ⟨?_, ?_, ?_, ?_, ?_⟩
  · intro env osmData
    exact ⟨by simp [enrichLocationData, caughtCall_count],
           by simp [enrichLocationData, caughtCall_count]⟩
  · intro α a₁ a₂ tag h
    exact caughtCall_congr a₁ a₂ tag h
  · intro env f g osmData
    simp only [enrichLocationData, caughtCall_error]
  · intro env name osmData rest e hn hcache hsearch hwiki herr
    have hne : (name == "") = false := beq_eq_false_iff_ne.mpr hn
    simp [searchCity, hne, hcache, hsearch, hwiki, herr]
  · intro env g name
    simp only [searchCity, caughtCall_error]

/-- C3 witness: the abort conjunct instantiated at the throwing cities
environment. -/
theorem C3_witness :
    (searchCity cityThrowEnv "Plovdiv").1 = .error "Wikipedia API timeout" :=
  C3_enrichment_guarded.2.2.2.1 cityThrowEnv "Plovdiv" osmSofia [] "Wikipedia API timeout"
    (by decide) (by decide) rfl (by decide) rfl

/-- C9 counterexample: the images merge performs no deduplication: when
the narrative adapter's primary image and thumbnail are the same URL, the
merged record repeats that URL. -/
theorem C9_counterexample :
    (enrichLocationData envDupImages osmWithWiki).1.images = ["u", "u"] ∧
    ¬ (enrichLocationData envDupImages osmWithWiki).1.images.Nodup := by
  refine ⟨by decide, by decide⟩

/-- C9 amended: the images field is the order-preserving concatenation of
the narrative adapter's primary image and thumbnail (in that order)
followed by the structured-facts adapter's image list, with falsy (absent
or empty) entries dropped; no deduplication is applied, so a URL may
appear more than once. -/
theorem C9_images_concatenation :
    (∀ env osmData w d wp wd,
        osmData.wikipedia = some w → w ≠ "" → env.wikipedia w = .ok (some wp) →
        osmData.wikidata = some d → d ≠ "" → env.wikidata d = .ok (some wd) →
        (enrichLocationData env osmData).1.images =
          filterBoolean (wp.image :: wp.thumbnail :: wd.images.map some)) ∧
    (∀ env osmData, "" ∉ (enrichLocationData env osmData).1.images) ∧
    (∃ env osmData, ¬ (enrichLocationData env osmData).1.images.Nodup) := by
  refine ⟨?_, ?_, ⟨envDupImages, osmWithWiki, by decide⟩⟩
  · intro env osmData w d wp wd hw hwne hwp hd hdne hwd
    have hwt : jsTruthyS (some w) = true := by simpa [jsTruthyS, bne_iff_ne] using hwne
    have hdt : jsTruthyS (some d) = true := by simpa [jsTruthyS, bne_iff_ne] using hdne
    simp [enrichLocationData, caughtCall, hw, hd, hwt, hdt, hwp, hwd]
  · intro env osmData
    have himg : (enrichLocationData env osmData).1.images =
        filterBoolean (((caughtCall env.wikipedia osmData.wikipedia).1.bind (fun w => w.image)) ::
          ((caughtCall env.wikipedia osmData.wikipedia).1.bind (fun w => w.thumbnail)) ::
          (((caughtCall env.wikidata osmData.wikidata).1.map (fun w => w.images)).getD []).map
            some) := rfl
    rw [himg]
    exact filterBoolean_no_empty _

/-- C9 witness: the concatenation conjunct instantiated at adapters
returning a summary with distinct images and a facts record with two
images. -/
theorem C9_witness :
    (enrichLocationData envBoth osmBoth).1.images =
      filterBoolean (wpInfoW.image :: wpInfoW.thumbnail :: wdInfoW.images.map some) :=
  C9_images_concatenation.1 envBoth osmBoth "en:X" "Q1" wpInfoW wdInfoW rfl (by decide) rfl
    rfl (by decide) rfl

end MCP
